import Mathlib

/-
  Verification development for the sccache client-auth module
  (src/dist/client_auth.rs): a transient local HTTP listener that
  captures an OAuth2 redirect (Authorization Code + PKCE flow, or
  Implicit Grant flow) and hands the credential back to the caller.

  The embedding below translates the Rust source shallowly:
  - machine integers become Nat with explicit reductions mod 2^32 where
    the SHA-256 arithmetic wraps;
  - the process-wide mutex-guarded flow state becomes an explicit state
    value threaded through the handler;
  - the capacity-1 result channel and the one-shot shutdown sender
    become an event trace emitted by the handler (Event below), and the
    channel contents after a trace prefix are recovered by folding the
    trace;
  - fallible Rust code returning Result becomes Except String;
  - panics (unwrap on None) become an explicit ServeOutcome.panic;
  - Instant is a Nat count of seconds, Duration a Nat of seconds;
  - the external url crate query parsing is modelled at the level of the
    ordered list of (key, value) pairs it yields; collecting into a
    HashMap is modelled by hmInsert / hmGet with last-insert-wins
    lookup, the observable semantics of std HashMap collect.
-/

namespace ClientAuth

/-! ## Query pairs and the HashMap collect model -/

/-- Insertion into the map built by collecting query pairs: inserting an
existing key overwrites its value, a new key is appended.  This models
the observable behaviour of collecting an iterator of pairs into a Rust
std HashMap, where a later pair with the same key replaces the earlier
value. -/
def hmInsert (m : List (String × String)) (k v : String) : List (String × String) :=
  if m.any (fun kv => kv.1 == k) then
    m.map (fun kv => if kv.1 == k then (k, v) else kv)
  else
    m ++ [(k, v)]

/-- Lookup in the collected map (the keys of the collected map are
distinct, so first match and last match coincide). -/
def hmGet : List (String × String) → String → Option String
  | [], _ => none
  | kv :: rest, k => if kv.1 == k then some kv.2 else hmGet rest k

/-- Model of query_pairs in the source: the url crate yields the query
parameters of the request URL in order, and collect builds a HashMap
from them.  The input is the ordered pair list produced by the parser.
(The fake-base join in the source cannot fail on a request URI, so the
Result wrapper is dropped.) -/
def query_pairs (pairs : List (String × String)) : List (String × String) :=
  pairs.foldl (fun m kv => hmInsert m kv.1 kv.2) []

/-- Last occurrence of a key in an ordered pair list: a later pair for
the same key shadows every earlier one. -/
def lastAssoc : List (String × String) → String → Option String
  | [], _ => none
  | kv :: rest, k =>
    match lastAssoc rest k with
    | some v => some v
    | none => if kv.1 == k then some kv.2 else none

/-! ## Base64 (URL_SAFE_NO_PAD) -/

/-- Alphabet of the URL-safe base64 configuration used by the source. -/
def b64Alphabet : List Char :=
  "ABCDEFGHIJKLMNOPQRSTUVWXYZabcdefghijklmnopqrstuvwxyz0123456789-_".data

def b64Char (i : Nat) : Char := b64Alphabet.getD i 'A'

/-- Encode a byte list into URL-safe base64 characters without padding,
three input bytes to four output characters, with the usual shortened
tail groups. -/
def b64Chars : List Nat → List Char
  | [] => []
  | [b0] =>
    [b64Char (b0 >>> 2), b64Char ((b0 &&& 3) <<< 4)]
  | [b0, b1] =>
    [b64Char (b0 >>> 2), b64Char (((b0 &&& 3) <<< 4) ||| (b1 >>> 4)),
     b64Char ((b1 &&& 15) <<< 2)]
  | b0 :: b1 :: b2 :: rest =>
    b64Char (b0 >>> 2) :: b64Char (((b0 &&& 3) <<< 4) ||| (b1 >>> 4)) ::
    b64Char (((b1 &&& 15) <<< 2) ||| (b2 >>> 6)) :: b64Char (b2 &&& 63) ::
    b64Chars rest

/-- base64 encode_config with URL_SAFE_NO_PAD, as used by the source. -/
def b64UrlNoPad (bytes : List Nat) : String := String.mk (b64Chars bytes)

/-! ## SHA-256 (the HASHER used by the PKCE generator) -/

def w32 (n : Nat) : Nat := n % 4294967296

def rotr32 (x n : Nat) : Nat := (x >>> n) ||| w32 (x <<< (32 - n))

def bigSigma0 (x : Nat) : Nat := rotr32 x 2 ^^^ rotr32 x 13 ^^^ rotr32 x 22

def bigSigma1 (x : Nat) : Nat := rotr32 x 6 ^^^ rotr32 x 11 ^^^ rotr32 x 25

def smallSigma0 (x : Nat) : Nat := rotr32 x 7 ^^^ rotr32 x 18 ^^^ (x >>> 3)

def smallSigma1 (x : Nat) : Nat := rotr32 x 17 ^^^ rotr32 x 19 ^^^ (x >>> 10)

def chFn (x y z : Nat) : Nat := (x &&& y) ^^^ ((x ^^^ 4294967295) &&& z)

def majFn (x y z : Nat) : Nat := (x &&& y) ^^^ (x &&& z) ^^^ (y &&& z)

def sha256K : List Nat :=
  [1116352408, 1899447441, 3049323471, 3921009573,
   961987163, 1508970993, 2453635748, 2870763221,
   3624381080, 310598401, 607225278, 1426881987,
   1925078388, 2162078206, 2614888103, 3248222580,
   3835390401, 4022224774, 264347078, 604807628,
   770255983, 1249150122, 1555081692, 1996064986,
   2554220882, 2821834349, 2952996808, 3210313671,
   3336571891, 3584528711, 113926993, 338241895,
   666307205, 773529912, 1294757372, 1396182291,
   1695183700, 1986661051, 2177026350, 2456956037,
   2730485921, 2820302411, 3259730800, 3345764771,
   3516065817, 3600352804, 4094571909, 275423344,
   430227734, 506948616, 659060556, 883997877,
   958139571, 1322822218, 1537002063, 1747873779,
   1955562222, 2024104815, 2227730452, 2361852424,
   2428436474, 2756734187, 3204031479, 3329325298]

structure Hash8 where
  a : Nat
  b : Nat
  c : Nat
  d : Nat
  e : Nat
  f : Nat
  g : Nat
  h : Nat
deriving DecidableEq

def sha256Init : Hash8 :=
  ⟨1779033703, 3144134277, 1013904242, 2773480762,
   1359893119, 2600822924, 528734635, 1541459225⟩

/-- Standard SHA-256 padding: append 0x80, zero bytes to reach 56 mod
64, then the 64-bit big-endian bit length. -/
def sha256Pad (msg : List Nat) : List Nat :=
  let bitLen := 8 * msg.length
  let zeros := (64 - ((msg.length + 9) % 64)) % 64
  msg ++ [128] ++ List.replicate zeros 0 ++
    (List.range 8).map (fun i => (bitLen >>> (8 * (7 - i))) % 256)

/-- Big-endian 32-bit word number i of a 64-byte block. -/
def beWord (block : List Nat) (i : Nat) : Nat :=
  (block.getD (4 * i) 0 <<< 24) ||| (block.getD (4 * i + 1) 0 <<< 16) |||
  (block.getD (4 * i + 2) 0 <<< 8) ||| block.getD (4 * i + 3) 0

/-- Message schedule: the 16 block words extended to 64. -/
def msgSchedule (block : List Nat) : Array Nat :=
  (List.range 48).foldl
    (fun w i =>
      w.push (w32 (smallSigma1 (w.getD (i + 14) 0) + w.getD (i + 9) 0 +
                   smallSigma0 (w.getD (i + 1) 0) + w.getD i 0)))
    ((List.range 16).map (beWord block)).toArray

/-- One SHA-256 compression round. -/
def sha256Round (w : Array Nat) (s : Hash8) (i : Nat) : Hash8 :=
  let t1 := w32 (s.h + bigSigma1 s.e + chFn s.e s.f s.g +
                 sha256K.getD i 0 + w.getD i 0)
  let t2 := w32 (bigSigma0 s.a + majFn s.a s.b s.c)
  ⟨w32 (t1 + t2), s.a, s.b, s.c, w32 (s.d + t1), s.e, s.f, s.g⟩

/-- Compress one 64-byte block into the running hash state. -/
def compressBlock (hs : Hash8) (block : List Nat) : Hash8 :=
  let w := msgSchedule block
  let s := (List.range 64).foldl (sha256Round w) hs
  ⟨w32 (hs.a + s.a), w32 (hs.b + s.b), w32 (hs.c + s.c), w32 (hs.d + s.d),
   w32 (hs.e + s.e), w32 (hs.f + s.f), w32 (hs.g + s.g), w32 (hs.h + s.h)⟩

/-- SHA-256 of a byte list, as a 32-byte digest.  This embeds the
external crypto sha2 hasher the source instantiates as HASHER. -/
def sha256 (msg : List Nat) : List Nat :=
  let padded := sha256Pad msg
  let blocks := (List.range (padded.length / 64)).map
    (fun i => (padded.drop (64 * i)).take 64)
  let fin := blocks.foldl compressBlock sha256Init
  ([fin.a, fin.b, fin.c, fin.d, fin.e, fin.f, fin.g, fin.h].map
    (fun wd => [(wd >>> 24) % 256, (wd >>> 16) % 256, (wd >>> 8) % 256, wd % 256])).flatten

/-- Bytes of a string.  The strings hashed here are base64 output, pure
ASCII, where the UTF-8 bytes are exactly the code points. -/
def strBytes (s : String) : List Nat := s.data.map Char.toNat

/-! ## PKCE generator (code_grant_pkce) -/

/-- NUM_CODE_VERIFIER_BYTES from the source: 256 bits of randomness. -/
def NUM_CODE_VERIFIER_BYTES : Nat := 256 / 8

/-- generate_verifier_and_challenge from the source, with the OsRng
draw made explicit as the randomBytes argument: the verifier is the
URL-safe no-padding base64 encoding of the random bytes, and the
challenge is the same encoding of the SHA-256 digest of the encoded
verifier string (hasher input_str receives the string, not the raw
bytes). -/
def generate_verifier_and_challenge (randomBytes : List Nat) : String × String :=
  let code_verifier := b64UrlNoPad randomBytes
  let code_challenge := b64UrlNoPad (sha256 (strBytes code_verifier))
  (code_verifier, code_challenge)

/-! ## Requests, responses, channel events -/

inductive Method
  | GET
  | POST
  | otherMethod (s : String)
deriving DecidableEq

/-- Request as the handlers observe it: method, URI path, and the
ordered query pairs of the URI. -/
structure Request where
  method : Method
  path : String
  query : List (String × String)
deriving DecidableEq

/-- Response with the observable fields the claims are about (headers
elided). -/
structure Response where
  status : Nat
  body : String
deriving DecidableEq

/-- html_response from the source: status 200 with an HTML body. -/
def html_response (body : String) : Response := ⟨200, body⟩

/-- json_response from the source applied to a string value (the only
uses in the source), with serde serialization of a string modelled as
quoting it. -/
def json_response_str (s : String) : Response := ⟨200, "\"" ++ s ++ "\""⟩

def notFoundResponse : Response := ⟨404, ""⟩

/-- Operations a handler performs on the synchronization primitives: a
send on the capacity-1 result channel, or firing the one-shot shutdown
signal. -/
inductive Event
  | sendCred (cred : String)
  | fireShutdown
deriving DecidableEq

/-- Content of the capacity-1 result channel after a trace of handler
events (none = empty, some c = a non-blocking receive yields c). -/
def chanAfter (evs : List Event) : Option String :=
  evs.foldl (fun ch e => match e with | .sendCred c => some c | .fireShutdown => ch) none

/-- Outcome of one handler invocation: a response, a handler error
(carried as its chain of messages, to be rendered by serve_sfuture), or
a panic. -/
inductive ServeOutcome
  | ok (resp : Response)
  | handlerErr (chain : List String)
  | panic (msg : String)
deriving DecidableEq

/-- Result of one handler step: outcome, updated flow state, emitted
channel events (in order), and whether the near-expiry warning was
printed. -/
structure ServeStep (σ : Type) where
  outcome : ServeOutcome
  state : σ
  events : List Event
  warned : Bool
deriving DecidableEq

def displayChain (chain : List String) : String := String.intercalate "\n" chain

/-- serve_sfuture from the source: a handler error is rendered as an
INTERNAL_SERVER_ERROR (500) response whose body is the displayed error
chain; a panic propagates (no response). -/
def serve_sfuture_render (o : ServeOutcome) : Option Response :=
  match o with
  | .ok r => some r
  | .handlerErr chain => some ⟨500, displayChain chain⟩
  | .panic _ => none

/-- MIN_TOKEN_VALIDITY from the source, in seconds: two days. -/
def MIN_TOKEN_VALIDITY : Nat := 2 * 24 * 60 * 60

/-- Rust u64 from_str on the digit-only case (a leading plus sign and
the overflow bound of u64 are elided; the expiry strings exercised here
are plain digits). -/
def parseU64 (s : String) : Option Nat :=
  if s.data.isEmpty then none
  else if s.data.all Char.isDigit then
    some (s.data.foldl (fun acc c => acc * 10 + (c.toNat - 48)) 0)
  else none

/-- Rust str to_lowercase restricted to ASCII, which is all the
token_type comparisons exercise. -/
def to_lowercase (s : String) : String :=
  String.mk (s.data.map (fun c =>
    if 65 ≤ c.toNat ∧ c.toNat ≤ 90 then Char.ofNat (c.toNat + 32) else c))

/-- TOKEN_TYPE_RESULT_PARAM_VALUE, shared by both flows. -/
def TOKEN_TYPE_RESULT_PARAM_VALUE : String := "bearer"

/-- Placeholder body text for the static auth-redirect page served at
the root route (the HTML is inert data for every claim here). -/
def REDIRECT_WITH_AUTH_JSON : String := "<!doctype html> (fetch auth_detail.json and redirect)"

namespace code_grant_pkce

/-- Flow state of the code-grant flow.  The mpsc sender is represented
by the event trace, and the one-shot shutdown sender by an Option that
is taken on success. -/
structure State where
  auth_url : String
  auth_state_value : String
  shutdown_tx : Option Unit
deriving DecidableEq

/-- Static success page served after a good redirect. -/
def SUCCESS_AFTER_REDIRECT : String := "<!doctype html> (you can now close this page)"

/-- handle_code_response from the source: extract code then state from
the collected query parameters. -/
def handle_code_response (params : List (String × String)) : Except String (String × String) :=
  match hmGet params "code" with
  | none => .error "No code found in response"
  | some code =>
    match hmGet params "state" with
    | none => .error "No state found in response"
    | some state => .ok (code, state)

/-- serve from mod code_grant_pkce.  The mutex-guarded STATE is the
explicit st argument; ftry_send error paths become handlerErr with the
chained messages; the success path sends the code and then takes and
fires the shutdown sender, panicking if it was already consumed. -/
def serve (st : State) (req : Request) : ServeStep State :=
  match req.method, req.path with
  | .GET, "/" => ⟨.ok (html_response REDIRECT_WITH_AUTH_JSON), st, [], false⟩
  | .GET, "/auth_detail.json" => ⟨.ok (json_response_str st.auth_url), st, [], false⟩
  | .GET, "/redirect" =>
    match handle_code_response (query_pairs req.query) with
    | .error e => ⟨.handlerErr ["Failed to handle response from redirect", e], st, [], false⟩
    | .ok (code, auth_state) =>
      if auth_state ≠ st.auth_state_value then
        ⟨.handlerErr ["Mismatched auth states after redirect"], st, [], false⟩
      else
        match st.shutdown_tx with
        | some _ =>
          ⟨.ok (html_response SUCCESS_AFTER_REDIRECT),
           { st with shutdown_tx := none },
           [.sendCred code, .fireShutdown], false⟩
        | none =>
          ⟨.panic "called Option::unwrap() on a None value", st, [.sendCred code], false⟩
  | _, _ => ⟨.ok notFoundResponse, st, [], false⟩

/-- TokenResponse parsed from the token endpoint reply. -/
structure TokenResponse where
  access_token : String
  token_type : String
  expires_in : Nat
deriving DecidableEq

/-- handle_token_response from the source: reject a non-bearer (case
insensitive) token type, otherwise compute expires_at = now plus
expires_in immediately. -/
def handle_token_response (res : TokenResponse) (now : Nat) : Except String (String × Nat) :=
  if to_lowercase res.token_type ≠ TOKEN_TYPE_RESULT_PARAM_VALUE then
    .error ("Token type in response is not " ++ TOKEN_TYPE_RESULT_PARAM_VALUE)
  else
    .ok (res.access_token, now + res.expires_in)

/-- code_to_token from the source, with the outbound HTTP exchange made
explicit as arguments: whether the POST returned a success status, the
parsed reply if it was valid JSON, and the two Instant samples (at
parsing and at the validity check).  Returns the token together with
whether the near-expiry warning was printed. -/
def code_to_token (statusOk : Bool) (reply : Option TokenResponse)
    (now now2 : Nat) : Except String (String × Bool) :=
  if ¬ statusOk then .error "Sending code to token url failed, HTTP error"
  else
    match reply with
    | none => .error "Failed to parse token response as JSON"
    | some res =>
      match handle_token_response res now with
      | .error e => .error e
      | .ok (token, expires_at) =>
        .ok (token, decide (expires_at - now2 < MIN_TOKEN_VALIDITY))

end code_grant_pkce

namespace implicit

/-- Flow state of the implicit flow. -/
structure State where
  auth_url : String
  auth_state_value : String
  shutdown_tx : Option Unit
deriving DecidableEq

/-- Static page served on /redirect that forwards the URL fragment to
/save_auth. -/
def SAVE_AUTH_AFTER_REDIRECT : String := "<!doctype html> (post fragment to save_auth)"

/-- handle_response from mod implicit: extract token, token type
(case-insensitively bearer), expiry (parsed as an integer, with
expires_at = now plus expires_in computed immediately) and state, in the
source order. -/
def handle_response (params : List (String × String)) (now : Nat) :
    Except String (String × Nat × String) :=
  match hmGet params "access_token" with
  | none => .error "No token found in response"
  | some token =>
    match hmGet params "token_type" with
    | none => .error "No token type found in response"
    | some bearer =>
      if to_lowercase bearer ≠ TOKEN_TYPE_RESULT_PARAM_VALUE then
        .error ("Token type in response is not " ++ TOKEN_TYPE_RESULT_PARAM_VALUE)
      else
        match hmGet params "expires_in" with
        | none => .error "No expiry found in response"
        | some expires_in =>
          match parseU64 expires_in with
          | none => .error "Failed to parse expiry as integer"
          | some secs =>
            match hmGet params "state" with
            | none => .error "No state found in response"
            | some state => .ok (token, now + secs, state)

/-- serve from mod implicit, shaped like the code-grant serve: the
save_auth route validates the response fields, checks the CSRF state,
prints the near-expiry warning if applicable, then sends the token and
fires the shutdown signal in that order. -/
def serve (st : State) (now : Nat) (req : Request) : ServeStep State :=
  match req.method, req.path with
  | .GET, "/" => ⟨.ok (html_response REDIRECT_WITH_AUTH_JSON), st, [], false⟩
  | .GET, "/auth_detail.json" => ⟨.ok (json_response_str st.auth_url), st, [], false⟩
  | .GET, "/redirect" => ⟨.ok (html_response SAVE_AUTH_AFTER_REDIRECT), st, [], false⟩
  | .POST, "/save_auth" =>
    match handle_response (query_pairs req.query) now with
    | .error e => ⟨.handlerErr ["Failed to save auth after redirect", e], st, [], false⟩
    | .ok (token, expires_at, auth_state) =>
      if auth_state ≠ st.auth_state_value then
        ⟨.handlerErr ["Mismatched auth states after redirect"], st, [], false⟩
      else
        let warned := decide (expires_at - now < MIN_TOKEN_VALIDITY)
        match st.shutdown_tx with
        | some _ =>
          ⟨.ok (json_response_str ""),
           { st with shutdown_tx := none },
           [.sendCred token, .fireShutdown], warned⟩
        | none =>
          ⟨.panic "called Option::unwrap() on a None value", st, [.sendCred token], warned⟩
  | _, _ => ⟨.ok notFoundResponse, st, [], false⟩

end implicit

/-! ## Port binder (try_serve) -/

/-- VALID_PORTS from the source. -/
def VALID_PORTS : List Nat := [12731, 32492, 56909]

/-- io ErrorKind values the binder distinguishes. -/
inductive ErrorKind
  | connectionRefused
  | addrInUse
  | timedOut
  | permissionDenied
  | otherKind (s : String)
deriving DecidableEq

def errorKindMsg : ErrorKind → String
  | .connectionRefused => "Connection refused"
  | .addrInUse => "Address in use"
  | .timedOut => "Connection timed out"
  | .permissionDenied => "Permission denied"
  | .otherKind s => s

/-- Outcome of the TcpStream connect probe against a port. -/
inductive ConnectOutcome
  | connected
  | connectErr (kind : ErrorKind)
deriving DecidableEq

/-- Outcome of Server try_bind on a port: a bound server (identified by
a number), or an error whose io ErrorKind may or may not be recoverable
by downcasting. -/
inductive BindOutcome
  | bound (srv : Nat)
  | bindErr (kind : Option ErrorKind)
deriving DecidableEq

def bindErrMsg : Option ErrorKind → String
  | some k => errorKindMsg k
  | none => "hyper bind error"

/-- Network environment the binder runs against: what connecting to and
binding each port does. -/
structure NetEnv where
  connect : Nat → ConnectOutcome
  tryBind : Nat → BindOutcome

inductive TryServeResult
  | server (srv : Nat)
  | fatal (chain : List String)
deriving DecidableEq

/-- Loop body of try_serve over the remaining ports, translated from the
source: a successful connect probe means the port is occupied (skip); a
connect error other than ConnectionRefused is fatal; otherwise bind,
where AddrInUse means a bind race (skip) and any other bind error is
fatal.  The localhost address resolution is modelled as the literal
string localhost:port. -/
def try_serve_go (env : NetEnv) : List Nat → TryServeResult
  | [] => .fatal ["Could not bind to any valid port: (" ++ toString VALID_PORTS ++ ")"]
  | p :: rest =>
    match env.connect p with
    | .connected => try_serve_go env rest
    | .connectErr k =>
      if k = .connectionRefused then
        match env.tryBind p with
        | .bound s => .server s
        | .bindErr ko =>
          if ko = some .addrInUse then try_serve_go env rest
          else .fatal ["Failed to bind to localhost:" ++ toString p, bindErrMsg ko]
      else
        .fatal ["Failed to check localhost:" ++ toString p ++ " is available for binding",
                errorKindMsg k]

/-- try_serve from the source: run the loop over VALID_PORTS. -/
def try_serve (env : NetEnv) : TryServeResult := try_serve_go env VALID_PORTS

/-- Port p is skipped by the binder loop: either the connect probe
succeeds (already occupied), or the probe is refused and the bind then
fails with AddrInUse (lost the race). -/
def skipsPort (env : NetEnv) (p : Nat) : Prop :=
  env.connect p = .connected ∨
    (env.connect p = .connectErr .connectionRefused ∧
     env.tryBind p = .bindErr (some .addrInUse))

instance (env : NetEnv) (p : Nat) : Decidable (skipsPort env p) := by
  unfold skipsPort; infer_instance

/-! ## Sanity checks of the embedded hash and encoder against the
standard SHA-256 and base64 test vectors -/

set_option maxRecDepth 40000 in
theorem sha256_empty_vector :
    sha256 [] =
      [0xe3, 0xb0, 0xc4, 0x42, 0x98, 0xfc, 0x1c, 0x14, 0x9a, 0xfb, 0xf4, 0xc8,
       0x99, 0x6f, 0xb9, 0x24, 0x27, 0xae, 0x41, 0xe4, 0x64, 0x9b, 0x93, 0x4c,
       0xa4, 0x95, 0x99, 0x1b, 0x78, 0x52, 0xb8, 0x55] := by rfl

set_option maxRecDepth 40000 in
theorem sha256_abc_vector :
    sha256 (strBytes "abc") =
      [0xba, 0x78, 0x16, 0xbf, 0x8f, 0x01, 0xcf, 0xea, 0x41, 0x41, 0x40, 0xde,
       0x5d, 0xae, 0x22, 0x23, 0xb0, 0x03, 0x61, 0xa3, 0x96, 0x17, 0x7a, 0x9c,
       0xb4, 0x10, 0xff, 0x61, 0xf2, 0x00, 0x15, 0xad] := by rfl

theorem b64_no_padding_vector : b64UrlNoPad [105] = "aQ" ∧ b64UrlNoPad [251, 239, 190] = "----" :=
  ⟨rfl, rfl⟩

/-! ## Lemmas about the collected query-pair map -/

theorem hmGet_append_unseen (m : List (String × String)) (a b k : String)
    (h : m.any (fun kv => kv.1 == a) = false) :
    hmGet (m ++ [(a, b)]) k = if a == k then some b else hmGet m k := by
  induction m with
  | nil => simp [hmGet]
  | cons kv rest ih =>
    simp only [List.any_cons, Bool.or_eq_false_iff] at h
    simp only [List.cons_append, hmGet]
    cases h1 : (kv.1 == k) with
    | true =>
      have hak : (a == k) = false := by
        cases h2 : (a == k) with
        | true =>
          exfalso
          have : kv.1 = a := by rw [eq_of_beq h1, eq_of_beq h2]
          rw [show (kv.1 == a) = true from beq_iff_eq.mpr this] at h
          exact Bool.false_ne_true h.1.symm
        | false => rfl
      simp [hak]
    | false =>
      simp only [Bool.false_eq_true, if_false, List.append_eq]
      rw [ih h.2]

theorem hmGet_map_overwrite_hit (m : List (String × String)) (a b : String)
    (h : m.any (fun kv => kv.1 == a) = true) :
    hmGet (m.map (fun kv => if kv.1 == a then (a, b) else kv)) a = some b := by
  induction m with
  | nil => simp at h
  | cons kv rest ih =>
    simp only [List.any_cons, Bool.or_eq_true] at h
    simp only [List.map_cons, hmGet]
    cases h1 : (kv.1 == a) with
    | true => simp
    | false =>
      have hrest : rest.any (fun kv => kv.1 == a) = true := by
        rcases h with h | h
        · rw [h1] at h; exact absurd h Bool.false_ne_true
        · exact h
      simp only [h1, if_false, Bool.false_eq_true]
      exact ih hrest

theorem hmGet_map_overwrite_miss (m : List (String × String)) (a b k : String)
    (hak : (a == k) = false) :
    hmGet (m.map (fun kv => if kv.1 == a then (a, b) else kv)) k = hmGet m k := by
  induction m with
  | nil => rfl
  | cons kv rest ih =>
    simp only [List.map_cons, hmGet]
    cases h1 : (kv.1 == a) with
    | true =>
      have hk : (kv.1 == k) = false := by rw [eq_of_beq h1]; exact hak
      simp only [h1, if_true, hmGet, hak, hk, Bool.false_eq_true, if_false]
      exact ih
    | false =>
      simp only [h1, Bool.false_eq_true, if_false, hmGet]
      cases h2 : (kv.1 == k) with
      | true => rfl
      | false => exact ih

theorem hmGet_hmInsert (m : List (String × String)) (a b k : String) :
    hmGet (hmInsert m a b) k = if a == k then some b else hmGet m k := by
  unfold hmInsert
  cases hany : m.any (fun kv => kv.1 == a) with
  | false => simp only [hany, Bool.false_eq_true, if_false]; exact hmGet_append_unseen m a b k hany
  | true =>
    simp only [hany, if_true]
    cases hak : (a == k) with
    | true => rw [← eq_of_beq hak]; exact hmGet_map_overwrite_hit m a b hany
    | false => exact hmGet_map_overwrite_miss m a b k hak

theorem hmGet_foldl_hmInsert (ps : List (String × String)) (m : List (String × String))
    (k : String) :
    hmGet (ps.foldl (fun acc kv => hmInsert acc kv.1 kv.2) m) k =
      (match lastAssoc ps k with
       | some v => some v
       | none => hmGet m k) := by
  induction ps generalizing m with
  | nil => simp [lastAssoc]
  | cons kv rest ih =>
    simp only [List.foldl_cons, lastAssoc]
    rw [ih]
    cases lastAssoc rest k with
    | some v => rfl
    | none =>
      simp only [hmGet_hmInsert]
      cases h : (kv.1 == k) <;> simp

/-- Key law of the collected query map: lookup yields the value of the
last occurrence of the key among the query pairs. -/
theorem hmGet_query_pairs (ps : List (String × String)) (k : String) :
    hmGet (query_pairs ps) k = lastAssoc ps k := by
  unfold query_pairs
  rw [hmGet_foldl_hmInsert]
  cases lastAssoc ps k <;> rfl

/-! ## Lemmas about the port binder loop -/

theorem try_serve_go_skip (env : NetEnv) (p : Nat) (rest : List Nat) (h : skipsPort env p) :
    try_serve_go env (p :: rest) = try_serve_go env rest := by
  rcases h with h | ⟨h1, h2⟩
  · simp [try_serve_go, h]
  · simp [try_serve_go, h1, h2]

theorem try_serve_go_all_skip (env : NetEnv) (l : List Nat) (h : ∀ p ∈ l, skipsPort env p) :
    try_serve_go env l =
      .fatal ["Could not bind to any valid port: (" ++ toString VALID_PORTS ++ ")"] := by
  induction l with
  | nil => rfl
  | cons p rest ih =>
    rw [try_serve_go_skip env p rest (h p (by simp))]
    exact ih (fun q hq => h q (by simp [hq]))

theorem try_serve_go_skip_all_front (env : NetEnv) (pre l : List Nat)
    (h : ∀ q ∈ pre, skipsPort env q) :
    try_serve_go env (pre ++ l) = try_serve_go env l := by
  induction pre with
  | nil => rfl
  | cons p rest ih =>
    rw [List.cons_append, try_serve_go_skip env p (rest ++ l) (h p (by simp))]
    exact ih (fun q hq => h q (by simp [hq]))

/-! ## The claims -/

/-- C2: every (verifier, challenge) pair the PKCE generator returns from
a 256-bit random draw has the verifier equal to the URL-safe
no-padding base64 encoding of the random bytes, and the challenge equal
to the same encoding of the SHA-256 digest of the encoded verifier
string (not of the raw bytes); hence re-deriving the challenge from the
returned verifier reproduces the returned challenge. -/
theorem claim_C2 (randomBytes : List Nat)
    (hlen : randomBytes.length = NUM_CODE_VERIFIER_BYTES) :
    8 * randomBytes.length = 256 ∧
    (generate_verifier_and_challenge randomBytes).1 = b64UrlNoPad randomBytes ∧
    (generate_verifier_and_challenge randomBytes).2 =
      b64UrlNoPad (sha256 (strBytes (generate_verifier_and_challenge randomBytes).1)) :=
  ⟨by rw [hlen]; decide, rfl, rfl⟩

set_option maxRecDepth 40000 in
theorem claim_C2_witness :
    (List.replicate 32 (0 : Nat)).length = NUM_CODE_VERIFIER_BYTES ∧
    (8 * (List.replicate 32 (0 : Nat)).length = 256 ∧
     (generate_verifier_and_challenge (List.replicate 32 0)).1 =
       b64UrlNoPad (List.replicate 32 0) ∧
     (generate_verifier_and_challenge (List.replicate 32 0)).2 =
       b64UrlNoPad (sha256 (strBytes (generate_verifier_and_challenge (List.replicate 32 0)).1))) ∧
    generate_verifier_and_challenge (List.replicate 32 0) =
      ("AAAAAAAAAAAAAAAAAAAAAAAAAAAAAAAAAAAAAAAAAAA",
       "DwBzhbb51LfusnSGBa_hqYSgo7-j8BTQnip4TOnlzRo") :=
  ⟨by decide, claim_C2 (List.replicate 32 0) (by decide), by rfl⟩

/-- C4: the port binder walks the whitelist in order, skipping every
port whose connect probe succeeds and every port whose bind fails with
AddrInUse; it returns the server bound on the first port that passes
both steps, and if every whitelist port is skipped it fails with the
error naming the whole whitelist. -/
theorem claim_C4 (env : NetEnv) :
    ((∀ p ∈ VALID_PORTS, skipsPort env p) →
      try_serve env =
        .fatal ["Could not bind to any valid port: (" ++ toString VALID_PORTS ++ ")"])
    ∧ (∀ (pre post : List Nat) (p s : Nat),
        VALID_PORTS = pre ++ p :: post →
        (∀ q ∈ pre, skipsPort env q) →
        env.connect p = .connectErr .connectionRefused →
        env.tryBind p = .bound s →
        try_serve env = .server s) := by
  constructor
  · intro h
    exact try_serve_go_all_skip env VALID_PORTS h
  · intro pre post p s hv hpre hc hb
    unfold try_serve
    rw [hv, try_serve_go_skip_all_front env pre _ hpre]
    simp [try_serve_go, hc, hb]

theorem claim_C4_witness :
    ((∀ p ∈ VALID_PORTS,
        skipsPort ⟨fun _ => .connected, fun _ => .bindErr (some .addrInUse)⟩ p)
      ∧ try_serve ⟨fun _ => .connected, fun _ => .bindErr (some .addrInUse)⟩ =
          .fatal ["Could not bind to any valid port: (" ++ toString VALID_PORTS ++ ")"])
    ∧ try_serve ⟨fun _ => .connectErr .connectionRefused, fun _ => .bound 7⟩ = .server 7 :=
  ⟨⟨by decide, (claim_C4 _).1 (by decide)⟩,
   (claim_C4 _).2 [] [32492, 56909] 12731 7 rfl (by simp) rfl rfl⟩

/-- C10: during port selection, a connect-probe failure with any error
kind other than ConnectionRefused does not skip to the next whitelist
port but aborts the whole flow with the chained fatal error naming the
probed address; only ConnectionRefused proceeds to the bind attempt. -/
theorem claim_C10 (env : NetEnv) (pre post : List Nat) (p : Nat) (k : ErrorKind)
    (hv : VALID_PORTS = pre ++ p :: post)
    (hpre : ∀ q ∈ pre, skipsPort env q)
    (hc : env.connect p = .connectErr k)
    (hk : k ≠ .connectionRefused) :
    try_serve env =
      .fatal ["Failed to check localhost:" ++ toString p ++ " is available for binding",
              errorKindMsg k] := by
  unfold try_serve
  rw [hv, try_serve_go_skip_all_front env pre _ hpre]
  simp [try_serve_go, hc, hk]

theorem claim_C10_witness :
    (ErrorKind.timedOut ≠ ErrorKind.connectionRefused) ∧
    try_serve ⟨fun _ => .connectErr .timedOut, fun _ => .bound 7⟩ =
      .fatal ["Failed to check localhost:" ++ toString 12731 ++ " is available for binding",
              errorKindMsg .timedOut] :=
  ⟨by decide,
   claim_C10 ⟨fun _ => .connectErr .timedOut, fun _ => .bound 7⟩ [] [32492, 56909] 12731
     .timedOut rfl (by simp) rfl (by decide)⟩

/-- C9: query-parameter extraction collects the ordered pairs into a
hash map keyed by name, so when a parameter repeats only its last
occurrence is retained, and the handlers (which read the collected map)
validate and use that last occurrence. -/
theorem claim_C9 :
    (∀ (ps : List (String × String)) (k : String),
      hmGet (query_pairs ps) k = lastAssoc ps k)
    ∧ (∀ ps : List (String × String),
        code_grant_pkce.handle_code_response (query_pairs ps) =
          (match lastAssoc ps "code", lastAssoc ps "state" with
           | none, _ => .error "No code found in response"
           | some _, none => .error "No state found in response"
           | some code, some state => .ok (code, state)))
    ∧ (∀ (ps : List (String × String)) (now : Nat),
        implicit.handle_response (query_pairs ps) now =
          (match lastAssoc ps "access_token" with
           | none => Except.error "No token found in response"
           | some token =>
             match lastAssoc ps "token_type" with
             | none => .error "No token type found in response"
             | some bearer =>
               if to_lowercase bearer ≠ TOKEN_TYPE_RESULT_PARAM_VALUE then
                 .error ("Token type in response is not " ++ TOKEN_TYPE_RESULT_PARAM_VALUE)
               else
                 match lastAssoc ps "expires_in" with
                 | none => .error "No expiry found in response"
                 | some expires_in =>
                   match parseU64 expires_in with
                   | none => .error "Failed to parse expiry as integer"
                   | some secs =>
                     match lastAssoc ps "state" with
                     | none => .error "No state found in response"
                     | some state => .ok (token, now + secs, state))) := by
  refine ⟨hmGet_query_pairs, ?_, ?_⟩
  · intro ps
    unfold code_grant_pkce.handle_code_response
    rw [hmGet_query_pairs, hmGet_query_pairs]
    rcases lastAssoc ps "code" with _ | code <;> rcases lastAssoc ps "state" with _ | state <;> rfl
  · intro ps now
    unfold implicit.handle_response
    simp only [hmGet_query_pairs]

/-! ## Route-reduction lemmas for the two serve functions -/

theorem cg_serve_redirect_eq (st : code_grant_pkce.State) (q : List (String × String)) :
    code_grant_pkce.serve st ⟨.GET, "/redirect", q⟩ =
      (match code_grant_pkce.handle_code_response (query_pairs q) with
       | .error e => ⟨.handlerErr ["Failed to handle response from redirect", e], st, [], false⟩
       | .ok (code, auth_state) =>
         if auth_state ≠ st.auth_state_value then
           ⟨.handlerErr ["Mismatched auth states after redirect"], st, [], false⟩
         else
           match st.shutdown_tx with
           | some _ =>
             ⟨.ok (html_response code_grant_pkce.SUCCESS_AFTER_REDIRECT),
              { st with shutdown_tx := none },
              [.sendCred code, .fireShutdown], false⟩
           | none =>
             ⟨.panic "called Option::unwrap() on a None value", st, [.sendCred code], false⟩) :=
  rfl

theorem imp_serve_save_auth_eq (st : implicit.State) (now : Nat) (q : List (String × String)) :
    implicit.serve st now ⟨.POST, "/save_auth", q⟩ =
      (match implicit.handle_response (query_pairs q) now with
       | .error e => ⟨.handlerErr ["Failed to save auth after redirect", e], st, [], false⟩
       | .ok (token, expires_at, auth_state) =>
         if auth_state ≠ st.auth_state_value then
           ⟨.handlerErr ["Mismatched auth states after redirect"], st, [], false⟩
         else
           match st.shutdown_tx with
           | some _ =>
             ⟨.ok (json_response_str ""),
              { st with shutdown_tx := none },
              [.sendCred token, .fireShutdown],
              decide (expires_at - now < MIN_TOKEN_VALIDITY)⟩
           | none =>
             ⟨.panic "called Option::unwrap() on a None value", st, [.sendCred token],
              decide (expires_at - now < MIN_TOKEN_VALIDITY)⟩) :=
  rfl

/-- Success shape of handle_code_response under field hypotheses. -/
theorem cg_handle_code_response_ok (params : List (String × String)) (c s : String)
    (hc : hmGet params "code" = some c) (hs : hmGet params "state" = some s) :
    code_grant_pkce.handle_code_response params = .ok (c, s) := by
  simp only [code_grant_pkce.handle_code_response, hc, hs]

/-- The fields reported by a successful handle_code_response are the
looked-up code and state parameters. -/
theorem cg_handle_code_response_fields (params : List (String × String)) (c stv : String)
    (h : code_grant_pkce.handle_code_response params = .ok (c, stv)) :
    hmGet params "code" = some c ∧ hmGet params "state" = some stv := by
  cases h1 : hmGet params "code" with
  | none => simp [code_grant_pkce.handle_code_response, h1] at h
  | some c2 =>
    cases h2 : hmGet params "state" with
    | none => simp [code_grant_pkce.handle_code_response, h1, h2] at h
    | some s2 =>
      simp only [code_grant_pkce.handle_code_response, h1, h2, Except.ok.injEq,
        Prod.mk.injEq] at h
      exact ⟨by rw [h.1], by rw [h.2]⟩

/-- The state reported by a successful implicit handle_response is the
looked-up state parameter. -/
theorem imp_handle_response_state (params : List (String × String)) (now : Nat)
    (tok : String) (exp : Nat) (stv : String)
    (h : implicit.handle_response params now = .ok (tok, exp, stv)) :
    hmGet params "state" = some stv := by
  cases h1 : hmGet params "access_token" with
  | none => simp [implicit.handle_response, h1] at h
  | some token =>
    cases h2 : hmGet params "token_type" with
    | none => simp [implicit.handle_response, h1, h2] at h
    | some bearer =>
      by_cases h3 : to_lowercase bearer = TOKEN_TYPE_RESULT_PARAM_VALUE
      · cases h4 : hmGet params "expires_in" with
        | none => simp [implicit.handle_response, h1, h2, h3, h4] at h
        | some es =>
          cases h5 : parseU64 es with
          | none => simp [implicit.handle_response, h1, h2, h3, h4, h5] at h
          | some secs =>
            cases h6 : hmGet params "state" with
            | none => simp [implicit.handle_response, h1, h2, h3, h4, h5, h6] at h
            | some stv2 =>
              simp [implicit.handle_response, h1, h2, h3, h4, h5, h6] at h
              rw [h.2.2]
      · simp [implicit.handle_response, h1, h2, h3] at h

/-- Success shape of the implicit handle_response under the field
hypotheses used by several claims. -/
theorem imp_handle_response_ok (params : List (String × String)) (now : Nat)
    (tok tt es stv : String) (secs : Nat)
    (h1 : hmGet params "access_token" = some tok)
    (h2 : hmGet params "token_type" = some tt)
    (h3 : to_lowercase tt = "bearer")
    (h4 : hmGet params "expires_in" = some es)
    (h5 : parseU64 es = some secs)
    (h6 : hmGet params "state" = some stv) :
    implicit.handle_response params now = .ok (tok, now + secs, stv) := by
  unfold implicit.handle_response
  rw [h1, h2, h4, h6]
  simp only [TOKEN_TYPE_RESULT_PARAM_VALUE, h3, h5, ne_eq, not_true_eq_false, if_false]

/-- C6: in both flows the token_type field is validated
case-insensitively against bearer: a lowercased-to-bearer token type
passes the check (the handler proceeds to success for well-formed
fields), and any other value fails with the token-type-not-bearer
error. -/
theorem claim_C6 :
    (∀ (res : code_grant_pkce.TokenResponse) (now : Nat),
      to_lowercase res.token_type = "bearer" →
      code_grant_pkce.handle_token_response res now = .ok (res.access_token, now + res.expires_in))
    ∧ (∀ (res : code_grant_pkce.TokenResponse) (now : Nat),
        to_lowercase res.token_type ≠ "bearer" →
        code_grant_pkce.handle_token_response res now =
          .error "Token type in response is not bearer")
    ∧ (∀ (params : List (String × String)) (now : Nat) (tok tt : String),
        hmGet params "access_token" = some tok →
        hmGet params "token_type" = some tt →
        to_lowercase tt ≠ "bearer" →
        implicit.handle_response params now = .error "Token type in response is not bearer")
    ∧ (∀ (params : List (String × String)) (now : Nat) (tok tt es stv : String) (secs : Nat),
        hmGet params "access_token" = some tok →
        hmGet params "token_type" = some tt →
        to_lowercase tt = "bearer" →
        hmGet params "expires_in" = some es →
        parseU64 es = some secs →
        hmGet params "state" = some stv →
        implicit.handle_response params now = .ok (tok, now + secs, stv)) := by
  refine ⟨?_, ?_, ?_, fun params now tok tt es stv secs h1 h2 h3 h4 h5 h6 =>
    imp_handle_response_ok params now tok tt es stv secs h1 h2 h3 h4 h5 h6⟩
  · intro res now h
    unfold code_grant_pkce.handle_token_response
    simp only [TOKEN_TYPE_RESULT_PARAM_VALUE, h, ne_eq, not_true_eq_false, if_false]
  · intro res now h
    unfold code_grant_pkce.handle_token_response
    rw [if_pos (by simpa [TOKEN_TYPE_RESULT_PARAM_VALUE] using h)]
    rfl
  · intro params now tok tt h1 h2 h3
    unfold implicit.handle_response
    rw [h1, h2]
    simp only [TOKEN_TYPE_RESULT_PARAM_VALUE, ne_eq, h3, not_false_eq_true, if_true]
    rfl

theorem claim_C6_witness :
    to_lowercase "BeArEr" = "bearer" ∧
    code_grant_pkce.handle_token_response ⟨"tok", "BeArEr", 3600⟩ 100 = .ok ("tok", 100 + 3600) ∧
    to_lowercase "Basic" ≠ "bearer" ∧
    code_grant_pkce.handle_token_response ⟨"tok", "Basic", 3600⟩ 100 =
      .error "Token type in response is not bearer" ∧
    implicit.handle_response
      (query_pairs [("access_token", "tok"), ("token_type", "Basic"),
                    ("expires_in", "3600"), ("state", "x")]) 100 =
      .error "Token type in response is not bearer" ∧
    implicit.handle_response
      (query_pairs [("access_token", "tok"), ("token_type", "Bearer"),
                    ("expires_in", "3600"), ("state", "x")]) 100 =
      .ok ("tok", 100 + 3600, "x") :=
  ⟨by decide, claim_C6.1 ⟨"tok", "BeArEr", 3600⟩ 100 (by decide),
   by decide, claim_C6.2.1 ⟨"tok", "Basic", 3600⟩ 100 (by decide),
   claim_C6.2.2.1 _ 100 "tok" "Basic" (by decide) (by decide) (by decide),
   claim_C6.2.2.2 _ 100 "tok" "Bearer" "3600" "x" 3600
     (by decide) (by decide) (by decide) (by decide) (by decide) (by decide)⟩

/-- C7: in both flows the expiry is computed as expires_at = now plus
expires_in at parse time, and the near-expiry warning is emitted
exactly when the remaining validity is below the two-day
MIN_TOKEN_VALIDITY threshold, without affecting success: the token is
still returned (code-grant exchange) or sent (implicit save_auth). -/
theorem claim_C7 :
    (∀ (res : code_grant_pkce.TokenResponse) (now now2 : Nat),
      to_lowercase res.token_type = "bearer" →
      code_grant_pkce.handle_token_response res now = .ok (res.access_token, now + res.expires_in)
      ∧ code_grant_pkce.code_to_token true (some res) now now2 =
          .ok (res.access_token, decide (now + res.expires_in - now2 < MIN_TOKEN_VALIDITY)))
    ∧ (∀ (st : implicit.State) (q : List (String × String)) (now : Nat)
         (tok tt es : String) (secs : Nat),
        hmGet (query_pairs q) "access_token" = some tok →
        hmGet (query_pairs q) "token_type" = some tt →
        to_lowercase tt = "bearer" →
        hmGet (query_pairs q) "expires_in" = some es →
        parseU64 es = some secs →
        hmGet (query_pairs q) "state" = some st.auth_state_value →
        st.shutdown_tx = some () →
        implicit.serve st now ⟨.POST, "/save_auth", q⟩ =
          ⟨.ok (json_response_str ""), { st with shutdown_tx := none },
           [.sendCred tok, .fireShutdown], decide (secs < MIN_TOKEN_VALIDITY)⟩) := by
  constructor
  · intro res now now2 h
    have hok : code_grant_pkce.handle_token_response res now =
        .ok (res.access_token, now + res.expires_in) := by
      unfold code_grant_pkce.handle_token_response
      simp only [TOKEN_TYPE_RESULT_PARAM_VALUE, h, ne_eq, not_true_eq_false, if_false]
    refine ⟨hok, ?_⟩
    unfold code_grant_pkce.code_to_token
    simp [hok]
  · intro st q now tok tt es secs h1 h2 h3 h4 h5 h6 hsh
    rw [imp_serve_save_auth_eq,
        imp_handle_response_ok (query_pairs q) now tok tt es st.auth_state_value secs
          h1 h2 h3 h4 h5 h6]
    simp only [ne_eq, not_true_eq_false, if_false, hsh, Nat.add_sub_cancel_left]

theorem claim_C7_witness :
    (to_lowercase "bearer" = "bearer" ∧
     code_grant_pkce.handle_token_response ⟨"tok", "bearer", 3600⟩ 100 = .ok ("tok", 100 + 3600) ∧
     code_grant_pkce.code_to_token true (some ⟨"tok", "bearer", 3600⟩) 100 200 =
       .ok ("tok", decide (100 + 3600 - 200 < MIN_TOKEN_VALIDITY)))
    ∧ implicit.serve ⟨"u", "x", some ()⟩ 100
        ⟨.POST, "/save_auth",
         [("access_token", "tok"), ("token_type", "bearer"),
          ("expires_in", "3600"), ("state", "x")]⟩ =
        ⟨.ok (json_response_str ""), ⟨"u", "x", none⟩,
         [.sendCred "tok", .fireShutdown], decide (3600 < MIN_TOKEN_VALIDITY)⟩ :=
  ⟨⟨by decide,
    (claim_C7.1 ⟨"tok", "bearer", 3600⟩ 100 200 (by decide)).1,
    (claim_C7.1 ⟨"tok", "bearer", 3600⟩ 100 200 (by decide)).2⟩,
   claim_C7.2 ⟨"u", "x", some ()⟩
     [("access_token", "tok"), ("token_type", "bearer"),
      ("expires_in", "3600"), ("state", "x")] 100 "tok" "bearer" "3600" 3600
     (by decide) (by decide) (by decide) (by decide) (by decide) (by decide) (by decide)⟩

/-- Taking any prefix of the success trace that already contains the
shutdown event leaves the credential in the channel. -/
theorem take_mem_chanAfter (cred : String) (n : Nat)
    (hn : Event.fireShutdown ∈ ([Event.sendCred cred, Event.fireShutdown].take n)) :
    chanAfter ([Event.sendCred cred, Event.fireShutdown].take n) = some cred := by
  match n with
  | 0 => simp at hn
  | 1 => simp [List.take_succ_cons] at hn
  | n + 2 => simp [List.take_succ_cons, List.take_nil, chanAfter]

/-- C1: every successful completion of a redirect handler (code-grant
GET /redirect, or implicit POST /save_auth) emits the credential send
on the capacity-1 result channel strictly before firing the one-shot
shutdown signal, so every prefix of the event trace in which the
shutdown has fired has the credential available to a non-blocking
receive on the channel. -/
theorem claim_C1 :
    (∀ (st : code_grant_pkce.State) (q : List (String × String))
       (resp : Response) (st2 : code_grant_pkce.State) (evs : List Event) (w : Bool),
      code_grant_pkce.serve st ⟨.GET, "/redirect", q⟩ = ⟨.ok resp, st2, evs, w⟩ →
      ∃ cred, evs = [.sendCred cred, .fireShutdown] ∧
        ∀ n, Event.fireShutdown ∈ evs.take n → chanAfter (evs.take n) = some cred)
    ∧ (∀ (st : implicit.State) (now : Nat) (q : List (String × String))
         (resp : Response) (st2 : implicit.State) (evs : List Event) (w : Bool),
        implicit.serve st now ⟨.POST, "/save_auth", q⟩ = ⟨.ok resp, st2, evs, w⟩ →
        ∃ cred, evs = [.sendCred cred, .fireShutdown] ∧
          ∀ n, Event.fireShutdown ∈ evs.take n → chanAfter (evs.take n) = some cred) := by
  constructor
  · intro st q resp st2 evs w h
    rw [cg_serve_redirect_eq] at h
    split at h
    · simp at h
    · split at h
      · simp at h
      · split at h
        · simp only [ServeStep.mk.injEq] at h
          obtain ⟨h1, h2, h3, h4⟩ := h
          subst h3
          exact ⟨_, rfl, fun n hn => take_mem_chanAfter _ n hn⟩
        · simp at h
  · intro st now q resp st2 evs w h
    rw [imp_serve_save_auth_eq] at h
    split at h
    · simp at h
    · split at h
      · simp at h
      · split at h
        · simp only [ServeStep.mk.injEq] at h
          obtain ⟨h1, h2, h3, h4⟩ := h
          subst h3
          exact ⟨_, rfl, fun n hn => take_mem_chanAfter _ n hn⟩
        · simp at h

theorem claim_C1_witness :
    (code_grant_pkce.serve ⟨"u", "x", some ()⟩
       ⟨.GET, "/redirect", [("code", "abc123"), ("state", "x")]⟩ =
      ⟨.ok (html_response code_grant_pkce.SUCCESS_AFTER_REDIRECT), ⟨"u", "x", none⟩,
       [.sendCred "abc123", .fireShutdown], false⟩)
    ∧ (∃ cred, [Event.sendCred "abc123", Event.fireShutdown] =
          [Event.sendCred cred, Event.fireShutdown] ∧
        ∀ n, Event.fireShutdown ∈ ([Event.sendCred "abc123", Event.fireShutdown].take n) →
          chanAfter ([Event.sendCred "abc123", Event.fireShutdown].take n) = some cred)
    ∧ (∃ cred, [Event.sendCred "tok", Event.fireShutdown] =
          [Event.sendCred cred, Event.fireShutdown] ∧
        ∀ n, Event.fireShutdown ∈ ([Event.sendCred "tok", Event.fireShutdown].take n) →
          chanAfter ([Event.sendCred "tok", Event.fireShutdown].take n) = some cred) :=
  ⟨by decide,
   claim_C1.1 ⟨"u", "x", some ()⟩ [("code", "abc123"), ("state", "x")]
     (html_response code_grant_pkce.SUCCESS_AFTER_REDIRECT) ⟨"u", "x", none⟩
     [.sendCred "abc123", .fireShutdown] false (by decide),
   claim_C1.2 ⟨"u", "x", some ()⟩ 100
     [("access_token", "tok"), ("token_type", "bearer"), ("expires_in", "3600"), ("state", "x")]
     (json_response_str "") ⟨"u", "x", none⟩
     [.sendCred "tok", .fireShutdown] (decide (3600 - 0 < MIN_TOKEN_VALIDITY)) (by decide)⟩

/-- C8: after one successful completion of the redirect or save_auth
route the shutdown sender in the flow state is None, and a replayed
valid completion attempt against that consumed state reaches the panic
from unwrapping the taken shutdown sender, never a silent second
success. -/
theorem claim_C8 :
    (∀ (st : code_grant_pkce.State) (q : List (String × String))
       (resp : Response) (st2 : code_grant_pkce.State) (evs : List Event) (w : Bool),
      code_grant_pkce.serve st ⟨.GET, "/redirect", q⟩ = ⟨.ok resp, st2, evs, w⟩ →
      st2.shutdown_tx = none)
    ∧ (∀ (st : code_grant_pkce.State) (q : List (String × String)) (c : String),
        st.shutdown_tx = none →
        hmGet (query_pairs q) "code" = some c →
        hmGet (query_pairs q) "state" = some st.auth_state_value →
        code_grant_pkce.serve st ⟨.GET, "/redirect", q⟩ =
          ⟨.panic "called Option::unwrap() on a None value", st, [.sendCred c], false⟩)
    ∧ (∀ (st : implicit.State) (now : Nat) (q : List (String × String))
         (resp : Response) (st2 : implicit.State) (evs : List Event) (w : Bool),
        implicit.serve st now ⟨.POST, "/save_auth", q⟩ = ⟨.ok resp, st2, evs, w⟩ →
        st2.shutdown_tx = none)
    ∧ (∀ (st : implicit.State) (now : Nat) (q : List (String × String))
         (tok tt es : String) (secs : Nat),
        st.shutdown_tx = none →
        hmGet (query_pairs q) "access_token" = some tok →
        hmGet (query_pairs q) "token_type" = some tt →
        to_lowercase tt = "bearer" →
        hmGet (query_pairs q) "expires_in" = some es →
        parseU64 es = some secs →
        hmGet (query_pairs q) "state" = some st.auth_state_value →
        implicit.serve st now ⟨.POST, "/save_auth", q⟩ =
          ⟨.panic "called Option::unwrap() on a None value", st, [.sendCred tok],
           decide (secs < MIN_TOKEN_VALIDITY)⟩) := by
  refine ⟨?_, ?_, ?_, ?_⟩
  · intro st q resp st2 evs w h
    rw [cg_serve_redirect_eq] at h
    split at h
    · simp at h
    · split at h
      · simp at h
      · split at h
        · simp only [ServeStep.mk.injEq] at h
          rw [← h.2.1]
        · simp at h
  · intro st q c hsh hc hs
    rw [cg_serve_redirect_eq, cg_handle_code_response_ok (query_pairs q) c st.auth_state_value hc hs]
    simp [hsh]
  · intro st now q resp st2 evs w h
    rw [imp_serve_save_auth_eq] at h
    split at h
    · simp at h
    · split at h
      · simp at h
      · split at h
        · simp only [ServeStep.mk.injEq] at h
          rw [← h.2.1]
        · simp at h
  · intro st now q tok tt es secs hsh h1 h2 h3 h4 h5 h6
    rw [imp_serve_save_auth_eq,
        imp_handle_response_ok (query_pairs q) now tok tt es st.auth_state_value secs
          h1 h2 h3 h4 h5 h6]
    simp [hsh, Nat.add_sub_cancel_left]

theorem claim_C8_witness :
    (⟨"u", "x", none⟩ : code_grant_pkce.State).shutdown_tx = none
    ∧ code_grant_pkce.serve ⟨"u", "x", none⟩
        ⟨.GET, "/redirect", [("code", "c1"), ("state", "x")]⟩ =
        ⟨.panic "called Option::unwrap() on a None value", ⟨"u", "x", none⟩,
         [.sendCred "c1"], false⟩
    ∧ (⟨"u", "x", none⟩ : implicit.State).shutdown_tx = none
    ∧ implicit.serve ⟨"u", "x", none⟩ 100
        ⟨.POST, "/save_auth",
         [("access_token", "tok"), ("token_type", "bearer"),
          ("expires_in", "3600"), ("state", "x")]⟩ =
        ⟨.panic "called Option::unwrap() on a None value", ⟨"u", "x", none⟩,
         [.sendCred "tok"], decide (3600 < MIN_TOKEN_VALIDITY)⟩ :=
  ⟨claim_C8.1 ⟨"u", "x", some ()⟩ [("code", "c0"), ("state", "x")]
     (html_response code_grant_pkce.SUCCESS_AFTER_REDIRECT) ⟨"u", "x", none⟩
     [.sendCred "c0", .fireShutdown] false (by decide),
   claim_C8.2.1 ⟨"u", "x", none⟩ [("code", "c1"), ("state", "x")] "c1"
     rfl (by decide) (by decide),
   claim_C8.2.2.1 ⟨"u", "x", some ()⟩ 100
     [("access_token", "t0"), ("token_type", "bearer"),
      ("expires_in", "3600"), ("state", "x")]
     (json_response_str "") ⟨"u", "x", none⟩
     [.sendCred "t0", .fireShutdown] (decide (3600 - 0 < MIN_TOKEN_VALIDITY)) (by decide),
   claim_C8.2.2.2 ⟨"u", "x", none⟩ 100
     [("access_token", "tok"), ("token_type", "bearer"),
      ("expires_in", "3600"), ("state", "x")]
     "tok" "bearer" "3600" 3600 rfl
     (by decide) (by decide) (by decide) (by decide) (by decide) (by decide)⟩

/-- C3 as stated is refuted at a request whose state parameter is
present and mismatched but whose code parameter is absent: the handler
fails, but with the no-code error, not the mismatched-states error the
claim names for every such request. -/
theorem claim_C3_counterexample :
    code_grant_pkce.serve ⟨"u", "expected", some ()⟩
      ⟨.GET, "/redirect", [("state", "wrong")]⟩ =
      ⟨.handlerErr ["Failed to handle response from redirect", "No code found in response"],
       ⟨"u", "expected", some ()⟩, [], false⟩
    ∧ ¬ ("Mismatched auth states after redirect" ∈
          ["Failed to handle response from redirect", "No code found in response"]) :=
  ⟨by decide, by decide⟩

/-- C3 (amended): a request to the completion route whose state
parameter is present but differs from the expected CSRF state always
fails the flow with a handler error, performing no send on the result
channel and no send on the shutdown signal and leaving the flow state
unchanged; the error is the Mismatched-auth-states error whenever the
field extraction that precedes the state comparison succeeds (code
present for /redirect; token, bearer token type and parseable expiry
present for /save_auth). -/
theorem claim_C3 :
    (∀ (st : code_grant_pkce.State) (q : List (String × String)) (s : String),
      hmGet (query_pairs q) "state" = some s → s ≠ st.auth_state_value →
      (∃ chain, code_grant_pkce.serve st ⟨.GET, "/redirect", q⟩ =
        ⟨.handlerErr chain, st, [], false⟩)
      ∧ (∀ c, hmGet (query_pairs q) "code" = some c →
          code_grant_pkce.serve st ⟨.GET, "/redirect", q⟩ =
            ⟨.handlerErr ["Mismatched auth states after redirect"], st, [], false⟩))
    ∧ (∀ (st : implicit.State) (now : Nat) (q : List (String × String)) (s : String),
        hmGet (query_pairs q) "state" = some s → s ≠ st.auth_state_value →
        (∃ chain, implicit.serve st now ⟨.POST, "/save_auth", q⟩ =
          ⟨.handlerErr chain, st, [], false⟩)
        ∧ (∀ (tok tt es : String) (secs : Nat),
            hmGet (query_pairs q) "access_token" = some tok →
            hmGet (query_pairs q) "token_type" = some tt →
            to_lowercase tt = "bearer" →
            hmGet (query_pairs q) "expires_in" = some es →
            parseU64 es = some secs →
            implicit.serve st now ⟨.POST, "/save_auth", q⟩ =
              ⟨.handlerErr ["Mismatched auth states after redirect"], st, [], false⟩)) := by
  constructor
  · intro st q s hs hne
    constructor
    · cases hcr : code_grant_pkce.handle_code_response (query_pairs q) with
      | error e =>
        exact ⟨["Failed to handle response from redirect", e],
               by rw [cg_serve_redirect_eq, hcr]⟩
      | ok pr =>
        obtain ⟨c, stv⟩ := pr
        have hstv := (cg_handle_code_response_fields (query_pairs q) c stv hcr).2
        have heq : stv = s := Option.some_inj.mp (hstv.symm.trans hs)
        subst heq
        refine ⟨["Mismatched auth states after redirect"], ?_⟩
        rw [cg_serve_redirect_eq, hcr]
        simp [hne]
    · intro c hc
      rw [cg_serve_redirect_eq, cg_handle_code_response_ok (query_pairs q) c s hc hs]
      simp [hne]
  · intro st now q s hs hne
    constructor
    · cases hres : implicit.handle_response (query_pairs q) now with
      | error e =>
        exact ⟨["Failed to save auth after redirect", e],
               by rw [imp_serve_save_auth_eq, hres]⟩
      | ok tr =>
        obtain ⟨tok, exp, stv⟩ := tr
        have hstv := imp_handle_response_state (query_pairs q) now tok exp stv hres
        have heq : stv = s := Option.some_inj.mp (hstv.symm.trans hs)
        subst heq
        refine ⟨["Mismatched auth states after redirect"], ?_⟩
        rw [imp_serve_save_auth_eq, hres]
        simp [hne]
    · intro tok tt es secs h1 h2 h3 h4 h5
      rw [imp_serve_save_auth_eq,
          imp_handle_response_ok (query_pairs q) now tok tt es s secs h1 h2 h3 h4 h5 hs]
      simp [hne]

theorem claim_C3_witness :
    ((∃ chain, code_grant_pkce.serve ⟨"u", "expected", some ()⟩
        ⟨.GET, "/redirect", [("state", "wrong"), ("code", "c")]⟩ =
        ⟨.handlerErr chain, ⟨"u", "expected", some ()⟩, [], false⟩)
     ∧ (∀ c, hmGet (query_pairs [("state", "wrong"), ("code", "c")]) "code" = some c →
         code_grant_pkce.serve ⟨"u", "expected", some ()⟩
           ⟨.GET, "/redirect", [("state", "wrong"), ("code", "c")]⟩ =
           ⟨.handlerErr ["Mismatched auth states after redirect"],
            ⟨"u", "expected", some ()⟩, [], false⟩))
    ∧ ((∃ chain, implicit.serve ⟨"u", "expected", some ()⟩ 100
         ⟨.POST, "/save_auth",
          [("access_token", "tok"), ("token_type", "bearer"),
           ("expires_in", "3600"), ("state", "wrong")]⟩ =
         ⟨.handlerErr chain, ⟨"u", "expected", some ()⟩, [], false⟩)
       ∧ (∀ (tok tt es : String) (secs : Nat),
           hmGet (query_pairs
             [("access_token", "tok"), ("token_type", "bearer"),
              ("expires_in", "3600"), ("state", "wrong")]) "access_token" = some tok →
           hmGet (query_pairs
             [("access_token", "tok"), ("token_type", "bearer"),
              ("expires_in", "3600"), ("state", "wrong")]) "token_type" = some tt →
           to_lowercase tt = "bearer" →
           hmGet (query_pairs
             [("access_token", "tok"), ("token_type", "bearer"),
              ("expires_in", "3600"), ("state", "wrong")]) "expires_in" = some es →
           parseU64 es = some secs →
           implicit.serve ⟨"u", "expected", some ()⟩ 100
             ⟨.POST, "/save_auth",
              [("access_token", "tok"), ("token_type", "bearer"),
               ("expires_in", "3600"), ("state", "wrong")]⟩ =
             ⟨.handlerErr ["Mismatched auth states after redirect"],
              ⟨"u", "expected", some ()⟩, [], false⟩)) :=
  ⟨claim_C3.1 ⟨"u", "expected", some ()⟩ [("state", "wrong"), ("code", "c")] "wrong"
     (by decide) (by decide),
   claim_C3.2 ⟨"u", "expected", some ()⟩ 100
     [("access_token", "tok"), ("token_type", "bearer"),
      ("expires_in", "3600"), ("state", "wrong")] "wrong"
     (by decide) (by decide)⟩

/-- C5 as stated is refuted at a request to /redirect lacking the code
parameter: the handler error is rendered by serve_sfuture as status
500 (INTERNAL_SERVER_ERROR), which is not a 400-class status. -/
theorem claim_C5_counterexample :
    ((serve_sfuture_render (code_grant_pkce.serve ⟨"u", "expected", some ()⟩
        ⟨.GET, "/redirect", [("state", "expected")]⟩).outcome).map Response.status).getD 0 = 500
    ∧ ¬ (400 ≤ ((serve_sfuture_render (code_grant_pkce.serve ⟨"u", "expected", some ()⟩
          ⟨.GET, "/redirect", [("state", "expected")]⟩).outcome).map Response.status).getD 0
         ∧ ((serve_sfuture_render (code_grant_pkce.serve ⟨"u", "expected", some ()⟩
          ⟨.GET, "/redirect", [("state", "expected")]⟩).outcome).map Response.status).getD 0
           < 500) :=
  ⟨by decide, by decide⟩

/-- C5 (amended): a request to GET /redirect whose query lacks the code
(respectively the state) parameter makes the handler fail with the
no-code (respectively no-state) application error, delivering no
credential, and the error is rendered to the browser as a 500
Internal Server Error response carrying the chained message. -/
theorem claim_C5 (st : code_grant_pkce.State) (q : List (String × String)) :
    (hmGet (query_pairs q) "code" = none →
      code_grant_pkce.serve st ⟨.GET, "/redirect", q⟩ =
        ⟨.handlerErr ["Failed to handle response from redirect", "No code found in response"],
         st, [], false⟩
      ∧ serve_sfuture_render (code_grant_pkce.serve st ⟨.GET, "/redirect", q⟩).outcome =
          some ⟨500, displayChain ["Failed to handle response from redirect",
                                   "No code found in response"]⟩)
    ∧ (∀ c, hmGet (query_pairs q) "code" = some c → hmGet (query_pairs q) "state" = none →
        code_grant_pkce.serve st ⟨.GET, "/redirect", q⟩ =
          ⟨.handlerErr ["Failed to handle response from redirect", "No state found in response"],
           st, [], false⟩
        ∧ serve_sfuture_render (code_grant_pkce.serve st ⟨.GET, "/redirect", q⟩).outcome =
            some ⟨500, displayChain ["Failed to handle response from redirect",
                                     "No state found in response"]⟩) := by
  constructor
  · intro hc
    have hcr : code_grant_pkce.handle_code_response (query_pairs q) =
        .error "No code found in response" := by
      simp [code_grant_pkce.handle_code_response, hc]
    have hserve : code_grant_pkce.serve st ⟨.GET, "/redirect", q⟩ =
        ⟨.handlerErr ["Failed to handle response from redirect", "No code found in response"],
         st, [], false⟩ := by
      rw [cg_serve_redirect_eq, hcr]
    exact ⟨hserve, by rw [hserve]; rfl⟩
  · intro c hc hs
    have hcr : code_grant_pkce.handle_code_response (query_pairs q) =
        .error "No state found in response" := by
      simp [code_grant_pkce.handle_code_response, hc, hs]
    have hserve : code_grant_pkce.serve st ⟨.GET, "/redirect", q⟩ =
        ⟨.handlerErr ["Failed to handle response from redirect", "No state found in response"],
         st, [], false⟩ := by
      rw [cg_serve_redirect_eq, hcr]
    exact ⟨hserve, by rw [hserve]; rfl⟩

theorem claim_C5_witness :
    (code_grant_pkce.serve ⟨"u", "x", some ()⟩ ⟨.GET, "/redirect", [("state", "x")]⟩ =
       ⟨.handlerErr ["Failed to handle response from redirect", "No code found in response"],
        ⟨"u", "x", some ()⟩, [], false⟩
     ∧ serve_sfuture_render (code_grant_pkce.serve ⟨"u", "x", some ()⟩
         ⟨.GET, "/redirect", [("state", "x")]⟩).outcome =
         some ⟨500, displayChain ["Failed to handle response from redirect",
                                  "No code found in response"]⟩)
    ∧ (code_grant_pkce.serve ⟨"u", "x", some ()⟩ ⟨.GET, "/redirect", [("code", "c")]⟩ =
        ⟨.handlerErr ["Failed to handle response from redirect", "No state found in response"],
         ⟨"u", "x", some ()⟩, [], false⟩
       ∧ serve_sfuture_render (code_grant_pkce.serve ⟨"u", "x", some ()⟩
           ⟨.GET, "/redirect", [("code", "c")]⟩).outcome =
           some ⟨500, displayChain ["Failed to handle response from redirect",
                                    "No state found in response"]⟩) :=
  ⟨(claim_C5 ⟨"u", "x", some ()⟩ [("state", "x")]).1 (by decide),
   (claim_C5 ⟨"u", "x", some ()⟩ [("code", "c")]).2 "c" (by decide) (by decide)⟩

end ClientAuth
